import Mathlib

/-!
# Verification of the student-homework-app core

A shallow embedding of the data model (`src/models.py`) and the request
handlers (`src/app.py`) of the homework-tracking application, together
with theorems settling the specification claims about them.

Modelling conventions:
* The SQLite store becomes a `Store` structure holding the five tables as
  lists in insertion order, plus a `nextId` counter standing for the
  auto-increment primary-key generator shared across the embedding.
* `datetime` timestamps become `Int` (seconds); `timedelta(days = d)`
  becomes `d * 86400`.
* `grade` (`db.Float`) becomes `Option ℚ`: we model the arithmetic of the
  source exactly, abstracting from IEEE-754 rounding.
* A form field read with `request.form.get(k)` becomes an `Option String`
  (`none` = field absent).  Python truthiness of such a value
  (`if url:` etc.) is `pyTruthy`.  `request.form.get(k) or d` is `pyOr`.
* `datetime.fromisoformat(request.form["due_date"])` is modelled
  abstractly: the form carries `due_date : Option Int`, the result of the
  parse, with `none` meaning the field is missing or does not parse as a
  valid timestamp (in the source both raise an uncaught exception).
* `flash(msg, category)` calls are collected in the handler result;
  an uncaught Python exception is the `Response.serverError` outcome,
  `get_or_404` failure is `Response.notFound`.
-/

namespace HomeworkApp

/-- Model of `models.py` `User`: `id`, `name`, `is_teacher` (default `False`). -/
structure User where
  id : Nat
  name : String
  is_teacher : Bool
deriving Repr, DecidableEq

/-- Model of `models.py` `Homework`: `id`, `title`, `subject`, optional
`description`, `due_date`, `color` and `created_at`. -/
structure Homework where
  id : Nat
  title : String
  subject : String
  description : Option String
  due_date : Int
  color : String
  created_at : Int
deriving Repr, DecidableEq

/-- Model of `models.py` `Thread`: a discussion comment attached to a homework. -/
structure Thread where
  id : Nat
  homework_id : Nat
  author : String
  message : String
  created_at : Int
deriving Repr, DecidableEq

/-- Model of `models.py` `Resource`: a titled link attached to a homework. -/
structure Resource where
  id : Nat
  homework_id : Nat
  title : Option String
  url : String
  created_at : Int
deriving Repr, DecidableEq

/-- Model of `models.py` `Submission`: a student's response, optionally graded. -/
structure Submission where
  id : Nat
  homework_id : Nat
  student_id : Nat
  content : String
  submitted_at : Int
  grade : Option ℚ
  feedback : Option String
deriving Repr, DecidableEq

/-- The database state: the five tables in insertion order plus the
auto-increment counter. -/
structure Store where
  users : List User
  homeworks : List Homework
  threads : List Thread
  resources : List Resource
  submissions : List Submission
  nextId : Nat
deriving Repr, DecidableEq

/-- The empty database, as produced by `db.create_all()` on a fresh file. -/
def Store.empty : Store :=
  { users := [], homeworks := [], threads := [], resources := [],
    submissions := [], nextId := 0 }

/-- Python truthiness of an optional string: `None` and `""` are falsy,
every other string (including whitespace) is truthy. -/
def pyTruthy : Option String → Bool
  | none => false
  | some s => s ≠ ""

/-- The whitespace characters removed by Python's `str.strip()` with no
argument, i.e. the characters on which `str.isspace()` is true: tab,
newline, vertical tab, form feed, carriage return (U+0009-U+000D), the
file/group/record/unit separators (U+001C-U+001F), space, next line
(U+0085), no-break space (U+00A0), ogham space mark (U+1680), the en/em
quad family (U+2000-U+200A), line separator (U+2028), paragraph
separator (U+2029), narrow no-break space (U+202F), medium mathematical
space (U+205F) and ideographic space (U+3000). -/
def pyIsSpace (c : Char) : Bool :=
  (9 ≤ c.toNat ∧ c.toNat ≤ 13) ∨
  (28 ≤ c.toNat ∧ c.toNat ≤ 31) ∨
  c.toNat = 32 ∨ c.toNat = 133 ∨ c.toNat = 160 ∨ c.toNat = 0x1680 ∨
  (0x2000 ≤ c.toNat ∧ c.toNat ≤ 0x200a) ∨
  c.toNat = 0x2028 ∨ c.toNat = 0x2029 ∨ c.toNat = 0x202f ∨
  c.toNat = 0x205f ∨ c.toNat = 0x3000

/-- Python's `str.strip()`: drop whitespace from both ends. -/
def pyStrip (s : String) : String :=
  ⟨((s.data.dropWhile pyIsSpace).reverse.dropWhile pyIsSpace).reverse⟩

/-- Model of `request.form.get(k) or d`: the default replaces an absent or empty
field. -/
def pyOr (v : Option String) (d : String) : String :=
  match v with
  | none => d
  | some s => if s = "" then d else s

/-- Where a redirect points (`url_for` target). -/
inductive Redirect where
  | index
  | detail (hw_id : Nat)
deriving Repr, DecidableEq

/-- The outcome of a request: a redirect, a rendered page, plain text,
a 404 from `get_or_404`, or an uncaught exception (HTTP 500). -/
inductive Response where
  | redirect (target : Redirect)
  | html (page : String)
  | text (body : String)
  | notFound
  | serverError
deriving Repr, DecidableEq

/-- What a handler produces: the new store, the `flash` messages emitted
during the request (message, category), and the response. -/
structure HandlerResult where
  store : Store
  flashes : List (String × String)
  response : Response
deriving Repr, DecidableEq

/-- Model of `Homework.query.get_or_404(hw_id)`. -/
def Store.getHomework (st : Store) (hw_id : Nat) : Option Homework :=
  st.homeworks.find? (fun hw => hw.id = hw_id)

/-! ## Handlers (`app.py`) -/

/-- Form fields of `POST /homework/create`. `due_date` is the result of
`datetime.fromisoformat(request.form["due_date"])`: `none` when the field
is missing or does not parse as a valid timestamp (the source raises an
uncaught exception in both cases). -/
structure CreateHomeworkForm where
  title : Option String
  subject : Option String
  description : Option String
  due_date : Option Int
  color : Option String
deriving Repr, DecidableEq

/-- Handler `create_homework` (`app.py` lines 70-89), POST branch.  Reads the
required fields (`request.form[...]` raises when absent), parses the due
date (raises when unparseable), defaults `color` to `"#2d9cdb"`, inserts
the homework, flashes success and redirects to the index. -/
def create_homework (st : Store) (now : Int) (form : CreateHomeworkForm) :
    HandlerResult :=
  match form.title with
  | none => { store := st, flashes := [], response := .serverError }
  | some title =>
  match form.subject with
  | none => { store := st, flashes := [], response := .serverError }
  | some subject =>
  match form.due_date with
  | none => { store := st, flashes := [], response := .serverError }
  | some due_date =>
    let color := pyOr form.color "#2d9cdb"
    let hw : Homework :=
      { id := st.nextId, title := title, subject := subject,
        description := form.description, due_date := due_date,
        color := color, created_at := now }
    let st1 := { st with
      homeworks := st.homeworks ++ [hw],
      nextId := st.nextId + 1 }
    { store := st1,
      flashes := [("✅ Homework created", "success")],
      response := .redirect .index }

/-- Form fields of `POST /homework/<hw_id>` (posting a thread comment). -/
structure ThreadForm where
  author : Option String
  message : Option String
deriving Repr, DecidableEq

/-- Handler `homework_detail` (`app.py` lines 93-106), POST branch: defaults the
author to `"Anonymous"`, strips the message, persists a `Thread` only when
the stripped message is non-empty, and always redirects back. -/
def homework_detail_post (st : Store) (now : Int) (hw_id : Nat)
    (form : ThreadForm) : HandlerResult :=
  match st.getHomework hw_id with
  | none => { store := st, flashes := [], response := .notFound }
  | some hw =>
    let author := pyOr form.author "Anonymous"
    let message := pyStrip (form.message.getD "")
    if message ≠ "" then
      let t : Thread :=
        { id := st.nextId, homework_id := hw.id, author := author,
          message := message, created_at := now }
      let st1 := { st with
        threads := st.threads ++ [t],
        nextId := st.nextId + 1 }
      { store := st1,
        flashes := [("💬 Comment posted", "success")],
        response := .redirect (.detail hw_id) }
    else
      { store := st, flashes := [], response := .redirect (.detail hw_id) }

/-- Form fields of `POST /homework/<hw_id>/resource/add`. -/
structure ResourceForm where
  title : Option String
  url : Option String
deriving Repr, DecidableEq

/-- Handler `add_resource` (`app.py` lines 111-123): persists a `Resource` only
when the `url` field is truthy (present and non-empty), then redirects. -/
def add_resource (st : Store) (now : Int) (hw_id : Nat)
    (form : ResourceForm) : HandlerResult :=
  match st.getHomework hw_id with
  | none => { store := st, flashes := [], response := .notFound }
  | some hw =>
    if pyTruthy form.url then
      let r : Resource :=
        { id := st.nextId, homework_id := hw.id, title := form.title,
          url := form.url.getD "", created_at := now }
      let st1 := { st with
        resources := st.resources ++ [r],
        nextId := st.nextId + 1 }
      { store := st1,
        flashes := [("📎 Resource added", "success")],
        response := .redirect (.detail hw_id) }
    else
      { store := st, flashes := [], response := .redirect (.detail hw_id) }

/-- The find-or-create block of `submit_homework` (`app.py` lines
130-134); the spec calls it `findOrCreateUser`: look the user up by exact
name, create one (with the `is_teacher = False` column default) when
absent. -/
def findOrCreateUser (st : Store) (name : String) : User × Store :=
  match st.users.find? (fun u => u.name = name) with
  | some u => (u, st)
  | none =>
    let u : User := { id := st.nextId, name := name, is_teacher := false }
    (u, { st with users := st.users ++ [u], nextId := st.nextId + 1 })

/-- Form fields of `POST /homework/<hw_id>/submit`. -/
structure SubmitForm where
  student_name : Option String
  content : Option String
deriving Repr, DecidableEq

/-- Handler `submit_homework` (`app.py` lines 125-145): defaults the student name
to `"Student"`, finds-or-creates (and commits) the user, THEN checks the
content; a falsy content flashes a warning and redirects without
persisting a submission; otherwise a `Submission` is inserted. -/
def submit_homework (st : Store) (now : Int) (hw_id : Nat)
    (form : SubmitForm) : HandlerResult :=
  match st.getHomework hw_id with
  | none => { store := st, flashes := [], response := .notFound }
  | some hw =>
    let student_name := pyOr form.student_name "Student"
    let found := findOrCreateUser st student_name
    let student := found.1
    let st1 := found.2
    if pyTruthy form.content then
      let sub : Submission :=
        { id := st1.nextId, homework_id := hw.id, student_id := student.id,
          content := form.content.getD "", submitted_at := now,
          grade := none, feedback := none }
      let st2 := { st1 with
        submissions := st1.submissions ++ [sub],
        nextId := st1.nextId + 1 }
      { store := st2,
        flashes := [("✅ Submitted successfully", "success")],
        response := .redirect (.detail hw_id) }
    else
      { store := st1,
        flashes := [("⚠️ Submission cannot be empty", "warning")],
        response := .redirect (.detail hw_id) }

/-! ## Query layer -/

/-- Handler `index` (`app.py` lines 32-42) and the spec's `listUpcomingHomework`:
homework with `due_date >= now`, ordered by `due_date` ascending, capped
at `limit`. -/
def listUpcomingHomework (st : Store) (now : Int) (limit : Nat) :
    List Homework :=
  (((st.homeworks.filter (fun hw => now ≤ hw.due_date)).mergeSort
      (fun a b => a.due_date ≤ b.due_date)).take limit)

/-- The homepage `GET /`: the upcoming list with the literal `.limit(10)`
of the source. -/
def index (st : Store) (now : Int) : List Homework :=
  listUpcomingHomework st now 10

/-- Streaming `SELECT DISTINCT` over a list of keys: keep the first
occurrence of each value (`Submission.query.with_entities(...)
.distinct()`). -/
def distinctVals : List Nat → List Nat
  | [] => []
  | x :: xs => x :: distinctVals (xs.filter (fun y => y ≠ x))
termination_by l => l.length
decreasing_by
  simpa using Nat.lt_succ_of_le (List.length_filter_le _ xs)

/-- One per-subject dashboard bucket. -/
structure SubjectStats where
  total : Nat
  submitted : Nat
deriving Repr, DecidableEq

/-- Model of the dashboard line `subjects.setdefault(subj, ...)` with the
zero bucket: insert it when the key is absent. -/
def subjSetdefault (m : List (String × SubjectStats)) (k : String) :
    List (String × SubjectStats) :=
  if m.any (fun e => e.1 = k) then m else m ++ [(k, ⟨0, 0⟩)]

/-- Model of `subjects[subj]["total"] += 1`: update the (unique) entry with key
`k` in place. -/
def subjIncTotal : List (String × SubjectStats) → String →
    List (String × SubjectStats)
  | [], _ => []
  | e :: rest, k =>
    if e.1 = k then (e.1, ⟨e.2.total + 1, e.2.submitted⟩) :: rest
    else e :: subjIncTotal rest k

/-- Model of `subjects[subj]["submitted"] += 1`: update the (unique) entry with
key `k` in place. -/
def subjIncSubmitted : List (String × SubjectStats) → String →
    List (String × SubjectStats)
  | [], _ => []
  | e :: rest, k =>
    if e.1 = k then (e.1, ⟨e.2.total, e.2.submitted + 1⟩) :: rest
    else e :: subjIncSubmitted rest k

/-- First dashboard loop: `for hw in Homework.query.all()`. -/
def subjectsPass1 (m : List (String × SubjectStats)) :
    List Homework → List (String × SubjectStats)
  | [] => m
  | hw :: rest => subjectsPass1 (subjIncTotal (subjSetdefault m hw.subject) hw.subject) rest

/-- Model of `s.homework.subject`: the subject of the homework a submission refers
to (the relational join; `none` would be a dangling foreign key, on which
the source raises). -/
def ownerSubject (st : Store) (s : Submission) : Option String :=
  (st.getHomework s.homework_id).map Homework.subject

/-- Second dashboard loop: `for s in Submission.query.all()`.  A dangling
`homework_id` makes the source raise; the model skips it (the branch is
unreachable under the foreign-key invariant assumed by the theorems). -/
def subjectsPass2 (st : Store) (m : List (String × SubjectStats)) :
    List Submission → List (String × SubjectStats)
  | [] => m
  | s :: rest =>
    match ownerSubject st s with
    | some subj => subjectsPass2 st (subjIncSubmitted m subj) rest
    | none => subjectsPass2 st m rest

/-- Model of `subjects[k]`: dictionary lookup in the per-subject map. -/
def subjLookup (m : List (String × SubjectStats)) (k : String) :
    Option SubjectStats :=
  (m.find? (fun e => e.1 = k)).map Prod.snd

/-- What `dashboard` hands to the template. -/
structure DashboardStats where
  total : Nat
  pending : Nat
  completed : Nat
  avg_grade : Option ℚ
  subjects : List (String × SubjectStats)
deriving Repr, DecidableEq

/-- Handler `dashboard` (`app.py` lines 150-177): counts, distinct-submission
count, average grade and the per-subject breakdown. -/
def dashboard (st : Store) (now : Int) : DashboardStats :=
  let total := st.homeworks.length
  let pending := (st.homeworks.filter (fun hw => now ≤ hw.due_date)).length
  let completed := (distinctVals (st.submissions.map Submission.homework_id)).length
  let grades := st.submissions.filterMap Submission.grade
  let avg_grade : Option ℚ :=
    if grades = [] then none else some (grades.sum / grades.length)
  let subjects := subjectsPass2 st (subjectsPass1 [] st.homeworks) st.submissions
  { total := total, pending := pending, completed := completed,
    avg_grade := avg_grade, subjects := subjects }

/-- Handler `seed` (`app.py` lines 182-223): no-op with a status message when any
homework exists, otherwise insert the three fixed homeworks, then a sample
resource and thread attached to the first one. -/
def seed (st : Store) (now : Int) : HandlerResult :=
  if st.homeworks.length > 0 then
    { store := st, flashes := [], response := .text "Already seeded" }
  else
    let hw1 : Homework :=
      { id := st.nextId, title := "Algebra worksheet", subject := "Math",
        description := some "Exercises 1-10", due_date := now + 3 * 86400,
        color := "#ff6b6b", created_at := now }
    let hw2 : Homework :=
      { id := st.nextId + 1, title := "Short essay", subject := "English",
        description := some "Topic: Climate", due_date := now + 7 * 86400,
        color := "#ffd93d", created_at := now }
    let hw3 : Homework :=
      { id := st.nextId + 2, title := "Chemistry lab", subject := "Science",
        description := some "Write the lab report", due_date := now + 1 * 86400,
        color := "#2d9cdb", created_at := now }
    let st1 := { st with
      homeworks := st.homeworks ++ [hw1, hw2, hw3],
      nextId := st.nextId + 3 }
    let r : Resource :=
      { id := st1.nextId, homework_id := hw1.id,
        title := some "Video explanation",
        url := "https://example.com/algebra-video", created_at := now }
    let t : Thread :=
      { id := st1.nextId + 1, homework_id := hw1.id, author := "Teacher A",
        message := "Remember to show your steps.", created_at := now }
    let st2 := { st1 with
      resources := st1.resources ++ [r],
      threads := st1.threads ++ [t],
      nextId := st1.nextId + 2 }
    { store := st2, flashes := [], response := .text "✅ Seeded sample data" }

/-! ## Concrete instances used to instantiate the theorems -/

/-- A Math homework with id 0. -/
def exhw0 : Homework :=
  { id := 0, title := "Algebra", subject := "Math", description := none,
    due_date := 100, color := "#2d9cdb", created_at := 0 }

/-- An English homework with id 1. -/
def exhw1 : Homework :=
  { id := 1, title := "Essay", subject := "English", description := none,
    due_date := 200, color := "#ffd93d", created_at := 0 }

/-- A small store mirroring the spec's concrete scenario: Math homework
with no submissions, English homework with two submissions (one graded
90, one ungraded). -/
def exStore : Store :=
  { users := [{ id := 2, name := "Alice", is_teacher := false }],
    homeworks := [exhw0, exhw1],
    threads := [], resources := [],
    submissions :=
      [{ id := 3, homework_id := 1, student_id := 2, content := "draft",
         submitted_at := 10, grade := some 90, feedback := none },
       { id := 4, homework_id := 1, student_id := 2, content := "final",
         submitted_at := 11, grade := none, feedback := none }],
    nextId := 5 }

/-! ## Helper lemmas -/

theorem getHomework_mem {st : Store} {hw_id : Nat} {hw : Homework}
    (h : st.getHomework hw_id = some hw) : hw ∈ st.homeworks :=
  List.mem_of_find?_eq_some h

theorem getHomework_id {st : Store} {hw_id : Nat} {hw : Homework}
    (h : st.getHomework hw_id = some hw) : hw.id = hw_id := by
  simpa using List.find?_some h

theorem findOrCreateUser_name (st : Store) (name : String) :
    (findOrCreateUser st name).1.name = name := by
  unfold findOrCreateUser
  rcases h : st.users.find? (fun u => u.name = name) with _ | u
  · simp [h]
  · simp only [h]
    simpa using List.find?_some h

theorem findOrCreateUser_mem (st : Store) (name : String) :
    (findOrCreateUser st name).1 ∈ (findOrCreateUser st name).2.users := by
  unfold findOrCreateUser
  rcases h : st.users.find? (fun u => u.name = name) with _ | u
  · simp [h]
  · simp only [h]
    simpa using List.mem_of_find?_eq_some h

theorem findOrCreateUser_tables (st : Store) (name : String) :
    (findOrCreateUser st name).2.homeworks = st.homeworks ∧
    (findOrCreateUser st name).2.threads = st.threads ∧
    (findOrCreateUser st name).2.resources = st.resources ∧
    (findOrCreateUser st name).2.submissions = st.submissions := by
  unfold findOrCreateUser
  rcases h : st.users.find? (fun u => u.name = name) with _ | u <;> simp [h]

/-! ## Claims -/

/-- C9: Calling `/_seed` twice in sequence is idempotent: whatever the
starting state, the second call performs no writes, emits no flash, and
returns the "Already seeded" status message. -/
theorem seed_twice_idempotent (st : Store) (now1 now2 : Int) :
    (seed (seed st now1).store now2).store = (seed st now1).store ∧
    (seed (seed st now1).store now2).response = .text "Already seeded" ∧
    (seed (seed st now1).store now2).flashes = [] := by
  by_cases h : st.homeworks.length > 0 <;> simp [seed, h]

/-- C10: A submit request on an existing homework whose `student_name`
field is absent or blank is not rejected: it redirects back to the detail
view, the store contains a user named `"Student"` (found or created), and
when the content is non-blank the one persisted submission is attributed
to that user. -/
theorem submit_default_student_name (st : Store) (now : Int) (hw_id : Nat)
    (form : SubmitForm) (hw : Homework)
    (hhw : st.getHomework hw_id = some hw)
    (hname : form.student_name = none ∨ form.student_name = some "") :
    ∃ u : User,
      u ∈ (submit_homework st now hw_id form).store.users ∧
      u.name = "Student" ∧
      (submit_homework st now hw_id form).response =
        .redirect (.detail hw_id) ∧
      (pyTruthy form.content = true →
        ∃ sub : Submission,
          (submit_homework st now hw_id form).store.submissions =
            st.submissions ++ [sub] ∧
          sub.student_id = u.id ∧ sub.homework_id = hw.id) := by
  have hdef : pyOr form.student_name "Student" = "Student" := by
    rcases hname with h | h <;> simp [pyOr, h]
  refine ⟨(findOrCreateUser st "Student").1, ?_, findOrCreateUser_name st _, ?_, ?_⟩
  · by_cases hc : pyTruthy form.content <;>
      simp [submit_homework, hhw, hdef, hc, findOrCreateUser_mem st "Student"]
  · by_cases hc : pyTruthy form.content <;>
      simp [submit_homework, hhw, hdef, hc]
  · intro hc
    refine ⟨{ id := (findOrCreateUser st "Student").2.nextId,
              homework_id := hw.id,
              student_id := (findOrCreateUser st "Student").1.id,
              content := form.content.getD "", submitted_at := now,
              grade := none, feedback := none }, ?_, rfl, rfl⟩
    simp [submit_homework, hhw, hdef, hc,
      (findOrCreateUser_tables st "Student").2.2.2]

/-- C10 witness: submitting to homework 0 of a concrete store with an
absent student name creates a user named "Student" who owns the new
submission. -/
theorem submit_default_student_name_witness :
    ∃ u : User,
      u ∈ (submit_homework
            { users := [], homeworks := [⟨0, "HW", "Math", none, 100, "#2d9cdb", 0⟩],
              threads := [], resources := [], submissions := [], nextId := 1 }
            5 0 { student_name := none, content := some "my answer" }).store.users ∧
      u.name = "Student" ∧
      (submit_homework
            { users := [], homeworks := [⟨0, "HW", "Math", none, 100, "#2d9cdb", 0⟩],
              threads := [], resources := [], submissions := [], nextId := 1 }
            5 0 { student_name := none, content := some "my answer" }).response =
        .redirect (.detail 0) ∧
      (pyTruthy (some "my answer") = true →
        ∃ sub : Submission,
          (submit_homework
            { users := [], homeworks := [⟨0, "HW", "Math", none, 100, "#2d9cdb", 0⟩],
              threads := [], resources := [], submissions := [], nextId := 1 }
            5 0 { student_name := none, content := some "my answer" }).store.submissions =
            [] ++ [sub] ∧
          sub.student_id = u.id ∧
          sub.homework_id = (⟨0, "HW", "Math", none, 100, "#2d9cdb", 0⟩ : Homework).id) :=
  submit_default_student_name _ 5 0 _ _ (by decide) (Or.inl rfl)

/-- C7: On an existing homework, posting a thread with a blank or
whitespace-only message is a silent no-op (store unchanged, redirect, no
error), while a message that is non-empty after trimming persists exactly
one `Thread` row; the author defaults to `"Anonymous"` whenever the
author field is blank or absent. -/
theorem thread_post_spec (st : Store) (now : Int) (hw_id : Nat)
    (form : ThreadForm) (hw : Homework)
    (hhw : st.getHomework hw_id = some hw) :
    (pyStrip (form.message.getD "") = "" →
      (homework_detail_post st now hw_id form).store = st ∧
      (homework_detail_post st now hw_id form).response =
        .redirect (.detail hw_id)) ∧
    (pyStrip (form.message.getD "") ≠ "" →
      (homework_detail_post st now hw_id form).store.threads =
        st.threads ++
          [{ id := st.nextId, homework_id := hw.id,
             author := pyOr form.author "Anonymous",
             message := pyStrip (form.message.getD ""), created_at := now }] ∧
      (homework_detail_post st now hw_id form).store.users = st.users ∧
      (homework_detail_post st now hw_id form).store.homeworks =
        st.homeworks ∧
      (homework_detail_post st now hw_id form).store.resources =
        st.resources ∧
      (homework_detail_post st now hw_id form).store.submissions =
        st.submissions) ∧
    ((form.author = none ∨ form.author = some "") →
      pyOr form.author "Anonymous" = "Anonymous") := by
  refine ⟨fun h => ?_, fun h => ?_, ?_⟩
  · simp [homework_detail_post, hhw, h]
  · simp [homework_detail_post, hhw, h]
  · rintro (h | h) <;> simp [pyOr, h]

/-- C7 witness: posting the message `" hi "` with no author to homework 0
of the concrete store appends one thread with author "Anonymous" and the
trimmed message. -/
theorem thread_post_spec_witness :
    pyStrip ((some (" hi " : String)).getD "") ≠ "" ∧
    (homework_detail_post exStore 5 0 ⟨none, some " hi "⟩).store.threads =
      exStore.threads ++
        [{ id := exStore.nextId, homework_id := exhw0.id,
           author := pyOr none "Anonymous",
           message := pyStrip ((some (" hi " : String)).getD ""),
           created_at := 5 }] :=
  ⟨by decide,
    ((thread_post_spec exStore 5 0 ⟨none, some " hi "⟩ exhw0
      (by decide)).2.1 (by decide)).1⟩

/-- C8: On an existing homework, adding a resource is a silent no-op
(store unchanged, no flash, redirect) when the `url` field is absent or
blank, and otherwise persists exactly one `Resource` row carrying that
url. -/
theorem add_resource_spec (st : Store) (now : Int) (hw_id : Nat)
    (form : ResourceForm) (hw : Homework)
    (hhw : st.getHomework hw_id = some hw) :
    ((form.url = none ∨ form.url = some "") →
      (add_resource st now hw_id form).store = st ∧
      (add_resource st now hw_id form).flashes = [] ∧
      (add_resource st now hw_id form).response =
        .redirect (.detail hw_id)) ∧
    (∀ u : String, form.url = some u → u ≠ "" →
      (add_resource st now hw_id form).store.resources =
        st.resources ++
          [{ id := st.nextId, homework_id := hw.id, title := form.title,
             url := u, created_at := now }] ∧
      (add_resource st now hw_id form).store.users = st.users ∧
      (add_resource st now hw_id form).store.homeworks = st.homeworks ∧
      (add_resource st now hw_id form).store.threads = st.threads ∧
      (add_resource st now hw_id form).store.submissions =
        st.submissions ∧
      (add_resource st now hw_id form).response =
        .redirect (.detail hw_id)) := by
  constructor
  · rintro (h | h) <;> simp [add_resource, hhw, pyTruthy, h]
  · rintro u h hu
    simp [add_resource, hhw, pyTruthy, h, hu]

/-- C8 witness: adding a resource with a non-blank url to homework 0 of
the concrete store appends exactly that resource row. -/
theorem add_resource_spec_witness :
    ("https://x.test" : String) ≠ "" ∧
    (add_resource exStore 5 0 ⟨some "Video", some "https://x.test"⟩).store.resources =
      exStore.resources ++
        [{ id := exStore.nextId, homework_id := exhw0.id,
           title := some "Video", url := "https://x.test",
           created_at := 5 }] :=
  ⟨by decide,
    ((add_resource_spec exStore 5 0 ⟨some "Video", some "https://x.test"⟩
      exhw0 (by decide)).2 "https://x.test" rfl (by decide)).1⟩

/-- C1 counterexample: submitting blank content for a student name not
yet in the store persists no submission and flashes the warning, but does
NOT leave the store unchanged: the find-or-create user step has already
committed a new `User` row ("Bob", id 5). -/
theorem submit_blank_side_effect_counterexample :
    (submit_homework exStore 5 0 ⟨some "Bob", none⟩).store.submissions =
      exStore.submissions ∧
    (submit_homework exStore 5 0 ⟨some "Bob", none⟩).flashes =
      [("⚠️ Submission cannot be empty", "warning")] ∧
    (submit_homework exStore 5 0 ⟨some "Bob", none⟩).store.users =
      exStore.users ++ [{ id := 5, name := "Bob", is_teacher := false }] ∧
    (submit_homework exStore 5 0 ⟨some "Bob", none⟩).store ≠ exStore := by
  refine ⟨?_, ?_, ?_, ?_⟩ <;> decide

/-- C1 (amended): a submit request on an existing homework with blank or
absent content persists no `Submission`, flashes the warning, redirects,
and leaves the homework, thread, resource and submission tables
unchanged — but the user table may gain a row, because the find-or-create
user step runs (and commits) before the content check. -/
theorem submit_blank_no_submission (st : Store) (now : Int) (hw_id : Nat)
    (form : SubmitForm) (hw : Homework)
    (hhw : st.getHomework hw_id = some hw)
    (hblank : form.content = none ∨ form.content = some "") :
    (submit_homework st now hw_id form).store.submissions =
      st.submissions ∧
    (submit_homework st now hw_id form).store.homeworks = st.homeworks ∧
    (submit_homework st now hw_id form).store.threads = st.threads ∧
    (submit_homework st now hw_id form).store.resources = st.resources ∧
    (submit_homework st now hw_id form).flashes =
      [("⚠️ Submission cannot be empty", "warning")] ∧
    (submit_homework st now hw_id form).response =
      .redirect (.detail hw_id) := by
  have hc : pyTruthy form.content = false := by
    rcases hblank with h | h <;> simp [pyTruthy, h]
  have htab := findOrCreateUser_tables st (pyOr form.student_name "Student")
  simp [submit_homework, hhw, hc, htab.1, htab.2.1, htab.2.2.1, htab.2.2.2]

/-- C1 witness: the amended statement instantiated on the concrete
store. -/
theorem submit_blank_no_submission_witness :
    (submit_homework exStore 5 0 ⟨some "Bob", none⟩).store.submissions =
      exStore.submissions ∧
    (submit_homework exStore 5 0 ⟨some "Bob", none⟩).store.homeworks =
      exStore.homeworks ∧
    (submit_homework exStore 5 0 ⟨some "Bob", none⟩).store.threads =
      exStore.threads ∧
    (submit_homework exStore 5 0 ⟨some "Bob", none⟩).store.resources =
      exStore.resources ∧
    (submit_homework exStore 5 0 ⟨some "Bob", none⟩).flashes =
      [("⚠️ Submission cannot be empty", "warning")] ∧
    (submit_homework exStore 5 0 ⟨some "Bob", none⟩).response =
      .redirect (.detail 0) :=
  submit_blank_no_submission exStore 5 0 ⟨some "Bob", none⟩ exhw0
    (by decide) (Or.inl rfl)

/-- C3 counterexample: with an unparseable due date the create-homework
request ends in an uncaught exception (HTTP 500) with no flash emitted:
the failure is NOT surfaced as an inline notice, contrary to the claim
(though indeed no homework row is created). -/
theorem create_homework_bad_date_counterexample :
    (create_homework Store.empty 0
        ⟨some "T", some "S", none, none, none⟩).flashes = [] ∧
    (create_homework Store.empty 0
        ⟨some "T", some "S", none, none, none⟩).response = .serverError ∧
    (create_homework Store.empty 0
        ⟨some "T", some "S", none, none, none⟩).store = Store.empty := by
  refine ⟨?_, ?_, ?_⟩ <;> decide

/-- C3 (amended): when the color field is absent the created homework's
color is the fallback `"#2d9cdb"`; when the due date does not parse, the
request fails with an uncaught error — store unchanged and NO inline
notice (no flash) — rather than a `ValidationError` notice. -/
theorem create_homework_spec (st : Store) (now : Int)
    (form : CreateHomeworkForm) (t s : String)
    (ht : form.title = some t) (hs : form.subject = some s) :
    (form.due_date = none →
      (create_homework st now form).store = st ∧
      (create_homework st now form).flashes = [] ∧
      (create_homework st now form).response = .serverError) ∧
    (∀ d : Int, form.due_date = some d → form.color = none →
      (create_homework st now form).store.homeworks =
        st.homeworks ++
          [{ id := st.nextId, title := t, subject := s,
             description := form.description, due_date := d,
             color := "#2d9cdb", created_at := now }] ∧
      (create_homework st now form).response = .redirect .index) := by
  constructor
  · intro h
    simp [create_homework, ht, hs, h]
  · intro d hd hcol
    simp [create_homework, ht, hs, hd, hcol, pyOr]

/-- C3 witness: creating a homework with a parseable due date and no
color on the empty store appends the row with the fallback color. -/
theorem create_homework_spec_witness :
    (create_homework Store.empty 7
        ⟨some "T", some "S", none, some 50, none⟩).store.homeworks =
      Store.empty.homeworks ++
        [{ id := Store.empty.nextId, title := "T", subject := "S",
           description := none, due_date := 50, color := "#2d9cdb",
           created_at := 7 }] :=
  ((create_homework_spec Store.empty 7
      ⟨some "T", some "S", none, some 50, none⟩ "T" "S" rfl rfl).2
    50 rfl rfl).1

/-- C6: The upcoming-homework query returns only homework due at or
after `now`, sorted ascending by due date, with at most `limit` items;
the homepage is this query with the literal limit 10. -/
theorem listUpcoming_spec (st : Store) (now : Int) (limit : Nat) :
    (∀ hw ∈ listUpcomingHomework st now limit, now ≤ hw.due_date) ∧
    List.Pairwise (fun a b : Homework => a.due_date ≤ b.due_date)
      (listUpcomingHomework st now limit) ∧
    (listUpcomingHomework st now limit).length ≤ limit ∧
    index st now = listUpcomingHomework st now 10 := by
  refine ⟨?_, ?_, ?_, rfl⟩
  · intro hw hmem
    have h1 : hw ∈ (st.homeworks.filter
        (fun hw => now ≤ hw.due_date)).mergeSort
          (fun a b => a.due_date ≤ b.due_date) :=
      List.Sublist.mem hmem (List.take_sublist _ _)
    have h2 := List.mem_mergeSort.mp h1
    simpa using (List.mem_filter.mp h2).2
  · refine List.Pairwise.sublist (List.take_sublist _ _) ?_
    have htrans : ∀ a b c : Homework,
        decide (a.due_date ≤ b.due_date) = true →
        decide (b.due_date ≤ c.due_date) = true →
        decide (a.due_date ≤ c.due_date) = true := by
      intro a b c hab hbc
      simp only [decide_eq_true_eq] at *
      exact le_trans hab hbc
    have htot : ∀ a b : Homework,
        (decide (a.due_date ≤ b.due_date) ||
          decide (b.due_date ≤ a.due_date)) = true := by
      intro a b
      simp [Int.le_total a.due_date b.due_date]
    have hs := List.sorted_mergeSort htrans htot
      (st.homeworks.filter (fun hw => now ≤ hw.due_date))
    exact hs.imp (fun h => by simpa using h)
  · unfold listUpcomingHomework
    rw [List.length_take]
    exact inf_le_left

/-- C6 witness: the upcoming list of the concrete store with limit 1 has
at most one element. -/
theorem listUpcoming_spec_witness :
    (listUpcomingHomework exStore 0 1).length ≤ 1 :=
  (listUpcoming_spec exStore 0 1).2.2.1

theorem distinctVals_length (l : List Nat) :
    (distinctVals l).length = l.toFinset.card := by
  induction l using distinctVals.induct with
  | case1 => simp [distinctVals]
  | case2 x xs ih =>
    rw [distinctVals]
    have hf : (xs.filter (fun y => y ≠ x)).toFinset = xs.toFinset.erase x := by
      rw [List.toFinset_filter]
      ext a
      simp [Finset.mem_erase, and_comm]
    have hins : insert x (xs.toFinset.erase x) = insert x xs.toFinset := by
      ext a
      simp [Finset.mem_insert, Finset.mem_erase]
      tauto
    calc (x :: distinctVals (xs.filter (fun y => y ≠ x))).length
        = (xs.filter (fun y => y ≠ x)).toFinset.card + 1 := by
          rw [List.length_cons, ih]
      _ = (insert x (xs.toFinset.erase x)).card := by
          rw [hf, Finset.card_insert_of_not_mem (Finset.not_mem_erase x _)]
      _ = (x :: xs).toFinset.card := by
          rw [hins, List.toFinset_cons]

/-- C4: The dashboard's `total` is the number of homework rows, and its
`completed` is the number of distinct `homework_id` values occurring
among the submissions, independent of grading. -/
theorem dashboard_total_completed (st : Store) (now : Int) :
    (dashboard st now).total = st.homeworks.length ∧
    (dashboard st now).completed =
      (st.submissions.map Submission.homework_id).toFinset.card :=
  ⟨rfl, by simp [dashboard, distinctVals_length]⟩

theorem length_filterMap_grade (l : List Submission) :
    (l.filterMap Submission.grade).length =
      l.countP (fun s => s.grade.isSome) := by
  induction l with
  | nil => rfl
  | cons s rest ih =>
    cases h : s.grade <;>
      simp [List.filterMap_cons, List.countP_cons, h, ih]

/-- C5: The dashboard's `avg_grade` is absent exactly when no submission
carries a grade, and when present it is the arithmetic mean of all
non-null grades across all submissions: it times the number of graded
submissions gives their sum. -/
theorem dashboard_avg_grade (st : Store) (now : Int) :
    ((dashboard st now).avg_grade = none ↔
      ∀ s ∈ st.submissions, s.grade = none) ∧
    (∀ g : ℚ, (dashboard st now).avg_grade = some g →
      0 < st.submissions.countP (fun s => s.grade.isSome) ∧
      g * (st.submissions.countP (fun s => s.grade.isSome) : ℚ) =
        (st.submissions.filterMap Submission.grade).sum) := by
  have hlen := length_filterMap_grade st.submissions
  have havg : (dashboard st now).avg_grade =
      if st.submissions.filterMap Submission.grade = [] then none
      else some ((st.submissions.filterMap Submission.grade).sum /
        ((st.submissions.filterMap Submission.grade).length : ℚ)) := rfl
  constructor
  · constructor
    · intro hnone
      rw [havg] at hnone
      by_cases h : st.submissions.filterMap Submission.grade = []
      · exact List.filterMap_eq_nil_iff.mp h
      · simp [h] at hnone
    · intro hall
      rw [havg, if_pos (List.filterMap_eq_nil_iff.mpr hall)]
  · intro g hg
    rw [havg] at hg
    by_cases h : st.submissions.filterMap Submission.grade = []
    · simp [h] at hg
    · rw [if_neg h] at hg
      have hpos : 0 < (st.submissions.filterMap Submission.grade).length :=
        List.length_pos.mpr h
      refine ⟨hlen ▸ hpos, ?_⟩
      have hne : ((st.submissions.filterMap Submission.grade).length : ℚ) ≠ 0 := by
        exact_mod_cast Nat.pos_iff_ne_zero.mp hpos
      rw [← hlen, (Option.some_inj.mp hg).symm]
      exact div_mul_cancel₀ _ hne

/-- C5 witness: on the concrete store (grades `[90]`) the average is
attained: `90 * 1 = 90`. -/
theorem dashboard_avg_grade_witness :
    0 < exStore.submissions.countP (fun s => s.grade.isSome) ∧
    (90 : ℚ) * (exStore.submissions.countP (fun s => s.grade.isSome) : ℚ) =
      (exStore.submissions.filterMap Submission.grade).sum :=
  (dashboard_avg_grade exStore 0).2 90 (by
    have h : exStore.submissions.filterMap Submission.grade = [(90 : ℚ)] := rfl
    norm_num [dashboard, h])

theorem subjLookup_setdefault_self (m : List (String × SubjectStats))
    (k : String) :
    subjLookup (subjSetdefault m k) k =
      some ((subjLookup m k).getD ⟨0, 0⟩) := by
  unfold subjSetdefault subjLookup
  by_cases h : m.any (fun e => e.1 = k)
  · rw [if_pos h]
    rcases hf : m.find? (fun e => decide (e.1 = k)) with _ | e
    · exfalso
      obtain ⟨e, hmem, he⟩ := List.any_eq_true.mp h
      have hne := List.find?_eq_none.mp hf e hmem
      exact hne he
    · simp [hf]
  · rw [if_neg h]
    have hf : m.find? (fun e => decide (e.1 = k)) = none := by
      rw [List.find?_eq_none]
      intro e hmem he
      exact h (List.any_eq_true.mpr ⟨e, hmem, he⟩)
    rw [List.find?_append, hf]
    simp

theorem subjLookup_setdefault_ne (m : List (String × SubjectStats))
    (k k' : String) (h : k' ≠ k) :
    subjLookup (subjSetdefault m k) k' = subjLookup m k' := by
  unfold subjSetdefault subjLookup
  by_cases ha : m.any (fun e => e.1 = k)
  · rw [if_pos ha]
  · rw [if_neg ha, List.find?_append]
    have hone : List.find? (fun e => decide (e.1 = k'))
        [(k, (⟨0, 0⟩ : SubjectStats))] = none := by
      simp [Ne.symm h]
    rw [hone]
    simp

theorem subjLookup_incTotal_self (m : List (String × SubjectStats))
    (k : String) :
    subjLookup (subjIncTotal m k) k =
      (subjLookup m k).map (fun v => ⟨v.total + 1, v.submitted⟩) := by
  induction m with
  | nil => rfl
  | cons e rest ih =>
    by_cases h : e.1 = k
    · simp [subjIncTotal, subjLookup, h]
    · simpa [subjIncTotal, subjLookup, h] using ih

theorem subjLookup_incTotal_ne (m : List (String × SubjectStats))
    (k k' : String) (h : k' ≠ k) :
    subjLookup (subjIncTotal m k) k' = subjLookup m k' := by
  induction m with
  | nil => rfl
  | cons e rest ih =>
    by_cases he : e.1 = k
    · have hne : ¬ e.1 = k' := by rw [he]; exact Ne.symm h
      simp [subjIncTotal, subjLookup, he, hne, Ne.symm h]
    · by_cases he' : e.1 = k'
      · simp [subjIncTotal, subjLookup, he, he', h]
      · simpa [subjIncTotal, subjLookup, he, he'] using ih

theorem subjLookup_incSubmitted_self (m : List (String × SubjectStats))
    (k : String) :
    subjLookup (subjIncSubmitted m k) k =
      (subjLookup m k).map (fun v => ⟨v.total, v.submitted + 1⟩) := by
  induction m with
  | nil => rfl
  | cons e rest ih =>
    by_cases h : e.1 = k
    · simp [subjIncSubmitted, subjLookup, h]
    · simpa [subjIncSubmitted, subjLookup, h] using ih

theorem subjLookup_incSubmitted_ne (m : List (String × SubjectStats))
    (k k' : String) (h : k' ≠ k) :
    subjLookup (subjIncSubmitted m k) k' = subjLookup m k' := by
  induction m with
  | nil => rfl
  | cons e rest ih =>
    by_cases he : e.1 = k
    · have hne : ¬ e.1 = k' := by rw [he]; exact Ne.symm h
      simp [subjIncSubmitted, subjLookup, he, hne, Ne.symm h]
    · by_cases he' : e.1 = k'
      · simp [subjIncSubmitted, subjLookup, he, he', h]
      · simpa [subjIncSubmitted, subjLookup, he, he'] using ih

theorem subjectsPass1_lookup_some (hws : List Homework)
    (m : List (String × SubjectStats)) (k : String) (v : SubjectStats)
    (h : subjLookup m k = some v) :
    subjLookup (subjectsPass1 m hws) k =
      some ⟨v.total + (hws.filter (fun hw => hw.subject = k)).length,
            v.submitted⟩ := by
  induction hws generalizing m v with
  | nil => simpa [subjectsPass1] using h
  | cons hw rest ih =>
    rw [subjectsPass1]
    by_cases hs : hw.subject = k
    · have h1 : subjLookup (subjSetdefault m hw.subject) k = some v := by
        rw [hs, subjLookup_setdefault_self, h]
        rfl
      have h2 : subjLookup
          (subjIncTotal (subjSetdefault m hw.subject) hw.subject) k =
          some ⟨v.total + 1, v.submitted⟩ := by
        rw [hs] at h1 ⊢
        rw [subjLookup_incTotal_self, h1]
        rfl
      rw [ih _ _ h2]
      simp [hs, List.filter_cons]
      omega
    · have h1 : subjLookup (subjSetdefault m hw.subject) k = some v := by
        rw [subjLookup_setdefault_ne _ _ _ (fun hk => hs hk.symm), h]
      have h2 : subjLookup
          (subjIncTotal (subjSetdefault m hw.subject) hw.subject) k =
          some v := by
        rw [subjLookup_incTotal_ne _ _ _ (fun hk => hs hk.symm), h1]
      rw [ih _ _ h2]
      simp [hs, List.filter_cons]

theorem subjectsPass1_lookup_none (hws : List Homework)
    (m : List (String × SubjectStats)) (k : String)
    (h : subjLookup m k = none) :
    subjLookup (subjectsPass1 m hws) k =
      if (hws.filter (fun hw => hw.subject = k)).length = 0 then none
      else some ⟨(hws.filter (fun hw => hw.subject = k)).length, 0⟩ := by
  induction hws generalizing m with
  | nil => simpa [subjectsPass1] using h
  | cons hw rest ih =>
    rw [subjectsPass1]
    by_cases hs : hw.subject = k
    · have h1 : subjLookup (subjSetdefault m hw.subject) k =
          some ⟨0, 0⟩ := by
        rw [hs, subjLookup_setdefault_self, h]
        rfl
      have h2 : subjLookup
          (subjIncTotal (subjSetdefault m hw.subject) hw.subject) k =
          some ⟨1, 0⟩ := by
        rw [hs] at h1 ⊢
        rw [subjLookup_incTotal_self, h1]
        rfl
      rw [subjectsPass1_lookup_some rest _ _ _ h2]
      simp [hs, List.filter_cons]
      omega
    · have h1 : subjLookup (subjSetdefault m hw.subject) k = none := by
        rw [subjLookup_setdefault_ne _ _ _ (fun hk => hs hk.symm), h]
      have h2 : subjLookup
          (subjIncTotal (subjSetdefault m hw.subject) hw.subject) k =
          none := by
        rw [subjLookup_incTotal_ne _ _ _ (fun hk => hs hk.symm), h1]
      rw [ih _ h2]
      simp [hs, List.filter_cons]

theorem subjectsPass2_lookup_some (st : Store) (ss : List Submission)
    (m : List (String × SubjectStats)) (k : String) (v : SubjectStats)
    (h : subjLookup m k = some v) :
    subjLookup (subjectsPass2 st m ss) k =
      some ⟨v.total, v.submitted +
        (ss.filter (fun s => ownerSubject st s = some k)).length⟩ := by
  induction ss generalizing m v with
  | nil => simpa [subjectsPass2] using h
  | cons s rest ih =>
    rw [subjectsPass2]
    rcases ho : ownerSubject st s with _ | subj
    · rw [ih _ _ h]
      simp [List.filter_cons, ho]
    · by_cases hk : subj = k
      · have h2 : subjLookup (subjIncSubmitted m subj) k =
            some ⟨v.total, v.submitted + 1⟩ := by
          rw [hk] at ho ⊢
          rw [subjLookup_incSubmitted_self, h]
          rfl
        rw [ih _ _ h2]
        simp [List.filter_cons, ho, hk]
        omega
      · have h2 : subjLookup (subjIncSubmitted m subj) k = some v := by
          rw [subjLookup_incSubmitted_ne _ _ _ (fun hx => hk hx.symm), h]
        rw [ih _ _ h2]
        have hno : ¬ ownerSubject st s = some k := by
          rw [ho]
          exact fun hc => hk (Option.some_inj.mp hc)
        simp [List.filter_cons, hno]

theorem subjectsPass2_lookup_none (st : Store) (ss : List Submission)
    (m : List (String × SubjectStats)) (k : String)
    (h : subjLookup m k = none) :
    subjLookup (subjectsPass2 st m ss) k = none := by
  induction ss generalizing m with
  | nil => simpa [subjectsPass2] using h
  | cons s rest ih =>
    rw [subjectsPass2]
    rcases ho : ownerSubject st s with _ | subj
    · exact ih _ h
    · refine ih _ ?_
      by_cases hk : subj = k
      · rw [hk, subjLookup_incSubmitted_self, h]
        rfl
      · rw [subjLookup_incSubmitted_ne _ _ _ (fun hx => hk hx.symm), h]

/-- C2: Under the schema's foreign-key invariant (every submission
references an existing homework), the dashboard's subject breakdown maps
a subject to a bucket exactly when some homework carries it, with `total`
the number of homework rows of that subject and `submitted` the number of
submission rows whose owning homework has that subject — one increment
per submission, so `submitted` may exceed `total`. -/
theorem dashboard_subject_breakdown (st : Store) (now : Int)
    (_hwf : ∀ s ∈ st.submissions, ∃ hw ∈ st.homeworks,
      hw.id = s.homework_id)
    (subj : String) :
    subjLookup (dashboard st now).subjects subj =
      if (st.homeworks.filter (fun hw => hw.subject = subj)).length = 0
      then none
      else some
        ⟨(st.homeworks.filter (fun hw => hw.subject = subj)).length,
         (st.submissions.filter
            (fun s => ownerSubject st s = some subj)).length⟩ := by
  have hnil : subjLookup [] subj = none := rfl
  have h1 := subjectsPass1_lookup_none st.homeworks [] subj hnil
  have hsub : (dashboard st now).subjects =
      subjectsPass2 st (subjectsPass1 [] st.homeworks) st.submissions := rfl
  by_cases hcnt :
      (st.homeworks.filter (fun hw => hw.subject = subj)).length = 0
  · rw [if_pos hcnt]
    rw [if_pos hcnt] at h1
    rw [hsub]
    exact subjectsPass2_lookup_none st st.submissions _ subj h1
  · rw [if_neg hcnt]
    rw [if_neg hcnt] at h1
    have h2 := subjectsPass2_lookup_some st st.submissions _ subj _ h1
    rw [hsub, h2]
    simp

/-- C2 witness: on the concrete store (spec scenario) the English bucket
is `{total := 1, submitted := 2}` — submitted exceeding total. -/
theorem dashboard_subject_breakdown_witness :
    subjLookup (dashboard exStore 0).subjects "English" =
      some ⟨1, 2⟩ := by
  rw [dashboard_subject_breakdown exStore 0 (by decide) "English"]
  decide

end HomeworkApp
